import Mathlib

/-!
Shallow embedding of `src/tail_risk_insurance_pool/src/lib.rs` (an Anchor/Solana
program).  Machine integers are modelled as `Nat` with explicit range checks
mirroring the source's `checked_*` operations (`u128` overflow bound `U128MAX`,
`u64` bound `U64MAX`); `i64` timestamps are modelled as `Int` with explicit
saturating subtraction.  Fallible instructions return `Except`.  An instruction
that returns an error commits no account mutation (Anchor reverts the whole
transaction on `Err`), so the error branches of the embedded functions return
no state.  External token transfers are modelled by explicit balance fields on
the global state; a transfer fails when the source balance is insufficient
(`PErr.transferFailed`, distinct from the program's own error enum).
-/

set_option maxRecDepth 100000

namespace TailRisk

/-- `SCALE` from lib.rs line 9: 1e6 fixed point. -/
def SCALE : Nat := 1000000

/-- `BPS_DENOM` from lib.rs line 10. -/
def BPS_DENOM : Nat := 10000

/-- `MAX_LOTS` from lib.rs line 13. -/
def MAX_LOTS : Nat := 16

/-- Largest value of a `u64`. -/
def U64MAX : Nat := 2 ^ 64 - 1

/-- Largest value of a `u128`. -/
def U128MAX : Nat := 2 ^ 128 - 1

/-- `u128::saturating_add`. -/
def satAdd128 (a b : Nat) : Nat := min (a + b) U128MAX

/-- `i64::saturating_sub` (on `Int`, clamped to the i64 range). -/
def i64SatSub (a b : Int) : Int := max (-(2 ^ 63)) (min (2 ^ 63 - 1) (a - b))

/-- The program's `ErrorCode` enum (lib.rs lines 1396-1426). -/
inductive ErrorCode
  | Unauthorized
  | Paused
  | MinDeposit
  | UserCapExceeded
  | LockupNotExpired
  | EpochNotActive
  | EpochAlreadyTriggered
  | MathOverflow
  | InsufficientPoolBalance
  | NothingToPayout
  | DepositCooldown
  | TooManyLots
  | ParamOutOfBounds
  | Busy
  deriving DecidableEq, Repr

/-- Failure of an embedded instruction: either a program `ErrorCode` or a
failed external SPL-token transfer (the collaborator of spec §6). -/
inductive PErr
  | code (e : ErrorCode)
  | transferFailed
  deriving DecidableEq, Repr

/-- `to_fp_u64` (lib.rs 1232-1235): `amount as u128` times `SCALE`, checked. -/
def to_fp_u64 (amount_u64 : Nat) : Except ErrorCode Nat :=
  if amount_u64 * SCALE ≤ U128MAX then .ok (amount_u64 * SCALE)
  else .error .MathOverflow

/-- `from_fp_to_u64` (lib.rs 1237-1242): divide by `SCALE` (never zero), then
`u64::try_from`. -/
def from_fp_to_u64 (amount_fp : Nat) : Except ErrorCode Nat :=
  if amount_fp / SCALE ≤ U64MAX then .ok (amount_fp / SCALE)
  else .error .MathOverflow

/-- `mul_div_floor_u128` (lib.rs 1244-1247): `checked_mul` then `checked_div`. -/
def mul_div_floor_u128 (a b denom : Nat) : Except ErrorCode Nat :=
  if a * b ≤ U128MAX then
    if denom = 0 then .error .MathOverflow else .ok (a * b / denom)
  else .error .MathOverflow

/-- `vault_balance_fp` (lib.rs 1249-1252): vault token amount times `SCALE`,
checked. -/
def vault_balance_fp (vault_amount : Nat) : Except ErrorCode Nat :=
  if vault_amount * SCALE ≤ U128MAX then .ok (vault_amount * SCALE)
  else .error .MathOverflow

/-- `weighted_stake_fp` (lib.rs 1254-1258). -/
def weighted_stake_fp (senior_fp junior_fp w_senior_bps w_junior_bps : Nat) :
    Except ErrorCode Nat :=
  match mul_div_floor_u128 senior_fp w_senior_bps BPS_DENOM with
  | .error e => .error e
  | .ok s_w =>
    match mul_div_floor_u128 junior_fp w_junior_bps BPS_DENOM with
    | .error e => .error e
    | .ok j_w =>
      if s_w + j_w ≤ U128MAX then .ok (s_w + j_w) else .error .MathOverflow

/-- `effective_severity_bps` (lib.rs 1261-1273): quadratic severity curve
`a·x² + b·x + c` in fixed point, converted back to bps and clamped by
`max (… , floor)` then `min (…, 10000)`. -/
def effective_severity_bps (x_bps a_fp b_fp c_fp floor_bps : Nat) :
    Except ErrorCode Nat :=
  if x_bps * SCALE ≤ U128MAX then
    match mul_div_floor_u128 (x_bps * SCALE) (x_bps * SCALE) SCALE with
    | .error e => .error e
    | .ok x2 =>
      match mul_div_floor_u128 a_fp x2 SCALE with
      | .error e => .error e
      | .ok ax2 =>
        match mul_div_floor_u128 b_fp (x_bps * SCALE) SCALE with
        | .error e => .error e
        | .ok bx =>
          if ax2 + bx ≤ U128MAX then
            if ax2 + bx + c_fp ≤ U128MAX then
              .ok (min (max ((ax2 + bx + c_fp) / SCALE) floor_bps) BPS_DENOM)
            else .error .MathOverflow
          else .error .MathOverflow
  else .error .MathOverflow

/-- `Lot` (lib.rs 1027-1031). -/
structure Lot where
  amount_fp : Nat
  ts : Int
  deriving DecidableEq, Repr

/-- `Lots` ring buffer (lib.rs 1033-1041); `buf` is the fixed 16-slot array. -/
structure Lots where
  head : Nat
  len : Nat
  buf : List Lot
  deriving DecidableEq, Repr

def emptyLots : Lots := ⟨0, 0, List.replicate MAX_LOTS ⟨0, 0⟩⟩

/-- `push_lot` (lib.rs 1276-1286). -/
def push_lot (lots : Lots) (lot : Lot) : Except ErrorCode Lots :=
  if lots.len < MAX_LOTS then
    .ok { lots with
          buf := lots.buf.set ((lots.head + lots.len) % MAX_LOTS) lot,
          len := lots.len + 1 }
  else .error .TooManyLots

/-- `pop_matured` (lib.rs 1288-1298). -/
def pop_matured (lots : Lots) (lockup_secs now : Int) : Option (Lot × Lots) :=
  if lots.len = 0 then none
  else
    let lot := lots.buf.getD lots.head ⟨0, 0⟩
    if lockup_secs ≤ i64SatSub now lot.ts then
      some (lot, { lots with head := (lots.head + 1) % MAX_LOTS, len := lots.len - 1 })
    else none

/-- The maturing loop of `mature_and_consume` (lib.rs 1308-1312).  Each
successful `pop_matured` strictly decreases `len`, so the Rust `loop`
terminates within `lots.len` iterations; that count is used as fuel. -/
def mature_loop : Nat → Lots → Int → Int → Nat → Lots × Nat
  | 0, lots, _, _, w => (lots, w)
  | fuel + 1, lots, lockup, now, w =>
    match pop_matured lots lockup now with
    | some (l, lots') => mature_loop fuel lots' lockup now (satAdd128 w l.amount_fp)
    | none => (lots, w)

/-- `mature_and_consume` (lib.rs 1300-1318): mature lots into the withdrawable
balance, then consume toward the requested amount.  Returns the new lots, the
new withdrawable balance and the remaining (unsatisfied) amount. -/
def mature_and_consume (lots : Lots) (lockup now : Int)
    (withdrawable_fp remaining : Nat) : Lots × Nat × Nat :=
  let p := mature_loop lots.len lots lockup now withdrawable_fp
  let take := min p.2 remaining
  (p.1, p.2 - take, remaining - take)

/-- `OracleList` (lib.rs 1087-1096); keys are modelled as `Nat` pubkeys. -/
structure OracleList where
  enabled : Bool
  count : Nat
  keys : List Nat
  deriving DecidableEq, Repr

/-- `oracle_is_allowed` (lib.rs 1329-1334): linear scan of the first `count`
keys. -/
def oracle_is_allowed (list : OracleList) (signer : Nat) : Bool :=
  (List.range list.count).any fun i => list.keys.getD i 0 == signer

/-- `State` (lib.rs 952-991); pubkeys as `Nat`, fixed-point amounts as `Nat`,
timestamps as `Int`.  The mint / treasury pubkeys and PDA bump are omitted
(they never influence the embedded logic). -/
structure State where
  admin : Nat
  paused : Bool
  processing : Bool
  payout_policy : Nat
  user_deposit_cap_fp : Nat
  min_deposit_fp : Nat
  protocol_fee_bps : Nat
  referral_fee_bps : Nat
  lockup_secs : Int
  min_seconds_between_deposits : Int
  epoch_cap_fp : Nat
  rolling_mode : Bool
  max_stale_secs : Int
  sev_quad_a_fp : Nat
  sev_quad_b_fp : Nat
  sev_quad_c_fp : Nat
  severity_floor_bps : Nat
  tranche_weight_senior_bps : Nat
  tranche_weight_junior_bps : Nat
  last_event_ts : Int
  total_deposited_fp : Nat
  carryover_shortfall_fp : Nat
  deriving DecidableEq, Repr

/-- `UserPosition` (lib.rs 1004-1025). -/
structure UserPosition where
  owner : Nat
  senior_deposited_fp : Nat
  junior_deposited_fp : Nat
  senior_withdrawable_fp : Nat
  junior_withdrawable_fp : Nat
  senior_lots : Lots
  junior_lots : Lots
  last_deposit_ts : Int
  referrer : Nat
  deriving DecidableEq, Repr

/-- A `UserPosition` as freshly allocated (all fields zeroed). -/
def initPosition : UserPosition :=
  { owner := 0, senior_deposited_fp := 0, junior_deposited_fp := 0,
    senior_withdrawable_fp := 0, junior_withdrawable_fp := 0,
    senior_lots := emptyLots, junior_lots := emptyLots,
    last_deposit_ts := 0, referrer := 0 }

/-- `Epoch` (lib.rs 1043-1074); `evidence_hash` abstracted to a `Nat`. -/
structure Epoch where
  epoch_id : Nat
  start_ts : Int
  end_ts : Int
  total_stake_snapshot_fp : Nat
  total_payout_fp : Nat
  shortfall_fp : Nat
  severity_bps : Nat
  user_cap_bps : Nat
  epoch_cap_fp : Nat
  triggered : Bool
  closed : Bool
  evidence_hash : Nat
  evidence_ts : Int
  deriving DecidableEq, Repr

/-- `ClaimReceipt` (lib.rs 1076-1085). -/
structure ClaimReceipt where
  epoch_id : Nat
  owner : Nat
  claimed_fp : Nat
  deriving DecidableEq, Repr

/-- A `ClaimReceipt` as freshly allocated (zeroed). -/
def initClaim : ClaimReceipt := ⟨0, 0, 0⟩

/-- Global on-chain state touched by the instructions under verification:
the singleton `State`, one `Epoch`, the oracle allowlist, the per-user
position and claim-receipt accounts (keyed by user pubkey), and the token
balances of the vault, the protocol treasury and the users. -/
structure GState where
  state : State
  epoch : Epoch
  oracle_list : OracleList
  positions : Nat → UserPosition
  claims : Nat → ClaimReceipt
  vaultAmount : Nat
  treasuryAmount : Nat
  userAmounts : Nat → Nat

/-- Point update of a map. -/
def updF {α : Type} (f : Nat → α) (k : Nat) (v : α) : Nat → α :=
  fun n => if n = k then v else f n

/-- `deposit_insurance` (lib.rs 146-248).  `u` is the signing user's pubkey.
Mirrors the source order: pause check, amount conversion and minimum, deposit
cooldown, tranche bound, user→vault transfer, fee computation and fee
transfers, net credit to the chosen tranche's lot queue and totals, per-user
cap check, pool total update.  An error leaves every account untouched. -/
def deposit_insurance (u amount_usdc tranche : Nat) (referrer_opt : Option Nat)
    (now : Int) (g : GState) : Except PErr GState :=
  if g.state.paused then .error (.code .Paused) else
  match to_fp_u64 amount_usdc with
  | .error e => .error (.code e)
  | .ok amount_fp =>
    if amount_fp < g.state.min_deposit_fp then .error (.code .MinDeposit) else
    if (g.positions u).last_deposit_ts ≠ 0 ∧ 0 < g.state.min_seconds_between_deposits ∧
        i64SatSub now (g.positions u).last_deposit_ts < g.state.min_seconds_between_deposits then
      .error (.code .DepositCooldown)
    else
    if 1 < tranche then .error (.code .Unauthorized) else
    if g.userAmounts u < amount_usdc then .error .transferFailed else
    match mul_div_floor_u128 amount_fp g.state.protocol_fee_bps BPS_DENOM with
    | .error e => .error (.code e)
    | .ok proto_fee_fp =>
      match mul_div_floor_u128 amount_fp g.state.referral_fee_bps BPS_DENOM with
      | .error e => .error (.code e)
      | .ok ref_fee_fp =>
        match from_fp_to_u64 proto_fee_fp with
        | .error e => .error (.code e)
        | .ok proto_fee_u64 =>
          match from_fp_to_u64 ref_fee_fp with
          | .error e => .error (.code e)
          | .ok ref_fee_u64 =>
            -- vault after the user's deposit arrives, then the protocol fee leaves
            if g.vaultAmount + amount_usdc < proto_fee_u64 then .error .transferFailed else
            let vault2 := g.vaultAmount + amount_usdc - proto_fee_u64
            let treas2 := g.treasuryAmount + proto_fee_u64
            -- optional referral fee transfer (lib.rs 205-219)
            let doRef : Bool :=
              match referrer_opt with
              | some r => decide (r ≠ 0 ∧ 0 < ref_fee_u64)
              | none => false
            if doRef ∧ vault2 < ref_fee_u64 then .error .transferFailed else
    let vault3 := if doRef then vault2 - ref_fee_u64 else vault2
    let refKey := match referrer_opt with | some r => r | none => 0
    let userAmts3 :=
      if doRef then
        updF (updF g.userAmounts u (g.userAmounts u - amount_usdc)) refKey
          ((updF g.userAmounts u (g.userAmounts u - amount_usdc)) refKey + ref_fee_u64)
      else updF g.userAmounts u (g.userAmounts u - amount_usdc)
    let newReferrer := if doRef then refKey else (g.positions u).referrer
    let net_fp := amount_fp - satAdd128 proto_fee_fp ref_fee_fp
    let position := g.positions u
    match (if tranche = 0 then push_lot position.senior_lots ⟨net_fp, now⟩
           else push_lot position.junior_lots ⟨net_fp, now⟩) with
    | .error e => .error (.code e)
    | .ok lots' =>
      let pos' :=
        if tranche = 0 then
          { position with
            owner := u, referrer := newReferrer, senior_lots := lots',
            senior_deposited_fp := satAdd128 position.senior_deposited_fp net_fp,
            senior_withdrawable_fp := satAdd128 position.senior_withdrawable_fp net_fp,
            last_deposit_ts := now }
        else
          { position with
            owner := u, referrer := newReferrer, junior_lots := lots',
            junior_deposited_fp := satAdd128 position.junior_deposited_fp net_fp,
            junior_withdrawable_fp := satAdd128 position.junior_withdrawable_fp net_fp,
            last_deposit_ts := now }
      if g.state.user_deposit_cap_fp < satAdd128 pos'.senior_deposited_fp pos'.junior_deposited_fp then
        .error (.code .UserCapExceeded)
      else
        .ok { g with
              state := { g.state with
                         total_deposited_fp := satAdd128 g.state.total_deposited_fp net_fp },
              positions := updF g.positions u pos',
              vaultAmount := vault3,
              treasuryAmount := treas2,
              userAmounts := userAmts3 }

/-- `withdraw` (lib.rs 251-297).  The `position.owner == user` Accounts
constraint (lib.rs 799) is included.  Matures and consumes lots FIFO, requires
the request fully satisfied, then reduces the deposited totals (saturating)
and transfers vault→user. -/
def withdraw (u amount_usdc tranche : Nat) (now : Int) (g : GState) :
    Except PErr GState :=
  if g.state.paused then .error (.code .Paused) else
  if 1 < tranche then .error (.code .Unauthorized) else
  if (g.positions u).owner ≠ u then .error (.code .Unauthorized) else
  match to_fp_u64 amount_usdc with
  | .error e => .error (.code e)
  | .ok amount_fp =>
    let position := g.positions u
    if tranche = 0 then
      let r := mature_and_consume position.senior_lots g.state.lockup_secs now
                 position.senior_withdrawable_fp amount_fp
      if r.2.2 ≠ 0 then .error (.code .InsufficientPoolBalance) else
      if g.vaultAmount < amount_usdc then .error .transferFailed else
      .ok { g with
            positions := updF g.positions u
              { position with
                senior_lots := r.1, senior_withdrawable_fp := r.2.1,
                senior_deposited_fp := position.senior_deposited_fp - amount_fp },
            state := { g.state with
                       total_deposited_fp := g.state.total_deposited_fp - amount_fp },
            vaultAmount := g.vaultAmount - amount_usdc,
            userAmounts := updF g.userAmounts u (g.userAmounts u + amount_usdc) }
    else
      let r := mature_and_consume position.junior_lots g.state.lockup_secs now
                 position.junior_withdrawable_fp amount_fp
      if r.2.2 ≠ 0 then .error (.code .InsufficientPoolBalance) else
      if g.vaultAmount < amount_usdc then .error .transferFailed else
      .ok { g with
            positions := updF g.positions u
              { position with
                junior_lots := r.1, junior_withdrawable_fp := r.2.1,
                junior_deposited_fp := position.junior_deposited_fp - amount_fp },
            state := { g.state with
                       total_deposited_fp := g.state.total_deposited_fp - amount_fp },
            vaultAmount := g.vaultAmount - amount_usdc,
            userAmounts := updF g.userAmounts u (g.userAmounts u + amount_usdc) }

/-- The authorization condition actually enforced at the top of
`trigger_event` (lib.rs 309-318): the allowlist must be enabled, and the
signer must be the admin or an allowed oracle. -/
def trigger_auth (g : GState) (signer : Nat) : Bool :=
  g.oracle_list.enabled && (signer == g.state.admin || oracle_is_allowed g.oracle_list signer)

/-- `trigger_event` (lib.rs 301-380). -/
def trigger_event (signer severity_input_bps : Nat) (user_cap_bps : Option Nat)
    (epoch_cap_fp_override : Option Nat) (evidence_hash : Option Nat)
    (evidence_ts_opt : Option Int) (now : Int) (g : GState) : Except PErr GState :=
  -- oracle allowlist gate (lib.rs 310-318)
  if ¬ g.oracle_list.enabled then .error (.code .Unauthorized) else
  if signer ≠ g.state.admin ∧ ¬ oracle_is_allowed g.oracle_list signer then
    .error (.code .Unauthorized)
  else
  if g.epoch.triggered then .error (.code .EpochAlreadyTriggered) else
  -- epoch window (lib.rs 326-330)
  if g.epoch.end_ts ≠ 0 ∧ ¬ (g.epoch.start_ts ≤ now ∧ now ≤ g.epoch.end_ts) then
    .error (.code .EpochNotActive)
  else
  if g.epoch.end_ts = 0 ∧ now < g.epoch.start_ts then .error (.code .EpochNotActive) else
  -- optional staleness check (lib.rs 333-338)
  if (match evidence_ts_opt with
      | some e_ts =>
        decide (0 < g.state.max_stale_secs ∧ g.state.max_stale_secs < i64SatSub now e_ts)
      | none => false) then
    .error (.code .EpochNotActive)
  else
  match effective_severity_bps severity_input_bps g.state.sev_quad_a_fp
      g.state.sev_quad_b_fp g.state.sev_quad_c_fp g.state.severity_floor_bps with
  | .error e => .error (.code e)
  | .ok sev_eff_bps =>
    .ok { g with
          epoch := { g.epoch with
                     evidence_ts := match evidence_ts_opt with
                                    | some e_ts => e_ts
                                    | none => g.epoch.evidence_ts,
                     total_stake_snapshot_fp := g.state.total_deposited_fp,
                     severity_bps := sev_eff_bps % 65536,   -- `as u16` cast
                     user_cap_bps := user_cap_bps.getD 0,
                     epoch_cap_fp := if g.state.payout_policy = 2 then
                                       epoch_cap_fp_override.getD g.state.epoch_cap_fp
                                     else 0,
                     triggered := true,
                     evidence_hash := evidence_hash.getD g.epoch.evidence_hash },
          state := { g.state with last_event_ts := now, paused := true } }

/-- `payout_user` (lib.rs 383-490).  The `processing` reentrancy guard is set
on entry and cleared on every exit path; in the serialized instruction model
this nets out, so the committed state keeps `processing` as it was.  All
computations follow the source order; the claim-receipt zero check (lib.rs
452) happens after the share computation, and the epoch accumulator, the
transfer and the receipt write happen only on full success. -/
def payout_user (u : Nat) (g : GState) : Except PErr GState :=
  if g.state.processing then .error (.code .Busy) else
  if g.epoch.triggered && !g.epoch.closed then
    match vault_balance_fp g.vaultAmount with
    | .error e => .error (.code e)
    | .ok pool_balance_fp =>
      match mul_div_floor_u128 g.epoch.total_stake_snapshot_fp g.epoch.severity_bps BPS_DENOM with
      | .error e => .error (.code e)
      | .ok base_liability_fp =>
        let shortfall' := if pool_balance_fp < base_liability_fp then
                            base_liability_fp - pool_balance_fp
                          else g.epoch.shortfall_fp
        let liability_cap_fp := if g.state.payout_policy = 2 then
                                  min base_liability_fp g.epoch.epoch_cap_fp
                                else base_liability_fp
        let max_liability_fp := min liability_cap_fp pool_balance_fp
        if max_liability_fp = 0 then .error (.code .NothingToPayout) else
        if (g.positions u).owner ≠ u then .error (.code .Unauthorized) else
        match weighted_stake_fp (g.positions u).senior_deposited_fp
            (g.positions u).junior_deposited_fp
            g.state.tranche_weight_senior_bps g.state.tranche_weight_junior_bps with
        | .error e => .error (.code e)
        | .ok effective_user_stake_fp =>
          if effective_user_stake_fp = 0 ∨ g.epoch.total_stake_snapshot_fp = 0 then
            .error (.code .NothingToPayout)
          else
          match mul_div_floor_u128 max_liability_fp effective_user_stake_fp
              g.epoch.total_stake_snapshot_fp with
          | .error e => .error (.code e)
          | .ok user_share_fp =>
            match (if g.state.payout_policy = 1 ∧ 0 < g.epoch.user_cap_bps then
                     match mul_div_floor_u128 effective_user_stake_fp g.epoch.user_cap_bps BPS_DENOM with
                     | .error e => .error e
                     | .ok cap_fp => .ok (min user_share_fp cap_fp)
                   else .ok user_share_fp : Except ErrorCode Nat) with
            | .error e => .error (.code e)
            | .ok final_user_payout_fp =>
              if (g.claims u).claimed_fp ≠ 0 then .error (.code .NothingToPayout) else
              let pay_fp := min final_user_payout_fp (max_liability_fp - g.epoch.total_payout_fp)
              if pay_fp = 0 then .error (.code .NothingToPayout) else
              match from_fp_to_u64 pay_fp with
              | .error e => .error (.code e)
              | .ok pay_u64 =>
                if g.vaultAmount < pay_u64 then .error .transferFailed else
                .ok { g with
                      epoch := { g.epoch with
                                 shortfall_fp := shortfall',
                                 total_payout_fp := satAdd128 g.epoch.total_payout_fp pay_fp },
                      claims := updF g.claims u
                        { epoch_id := g.epoch.epoch_id, owner := u, claimed_fp := pay_fp },
                      vaultAmount := g.vaultAmount - pay_u64,
                      userAmounts := updF g.userAmounts u (g.userAmounts u + pay_u64) }
  else .error (.code .EpochNotActive)

/-- `finalize_epoch` (lib.rs 493-531). -/
def finalize_epoch (sweep_dust_u64 : Option Nat) (g : GState) : Except PErr GState :=
  if g.epoch.triggered && !g.epoch.closed then
    let carry' := if 0 < g.epoch.shortfall_fp then
                    satAdd128 g.state.carryover_shortfall_fp g.epoch.shortfall_fp
                  else g.state.carryover_shortfall_fp
    let finish : Nat → Nat → Except PErr GState := fun vault' treas' =>
      .ok { g with
            epoch := { g.epoch with closed := true },
            state := { g.state with carryover_shortfall_fp := carry', paused := false },
            vaultAmount := vault', treasuryAmount := treas' }
    match sweep_dust_u64 with
    | none => finish g.vaultAmount g.treasuryAmount
    | some sweep =>
      if sweep = 0 then finish g.vaultAmount g.treasuryAmount else
      match vault_balance_fp g.vaultAmount with
      | .error e => .error (.code e)
      | .ok pool_bal_fp =>
        if pool_bal_fp ≤ g.state.total_deposited_fp then finish g.vaultAmount g.treasuryAmount else
        match from_fp_to_u64 (pool_bal_fp - g.state.total_deposited_fp) with
        | .error e => .error (.code e)
        | .ok dust_u64 =>
          let move := min sweep dust_u64
          if move = 0 then finish g.vaultAmount g.treasuryAmount
          else if g.vaultAmount < move then .error .transferFailed
          else finish (g.vaultAmount - move) (g.treasuryAmount + move)
  else .error (.code .EpochNotActive)

/-- Result of a fallible instruction with failures committing nothing:
the new state on success, the old state on error. -/
def okD (e : Except PErr GState) (d : GState) : GState :=
  match e with
  | .ok g => g
  | .error _ => d

/-- Whether an instruction succeeded. -/
def okB (e : Except PErr GState) : Bool :=
  match e with
  | .ok _ => true
  | .error _ => false

/-- One `payout_user` attempt by user `u`; a failed attempt commits nothing. -/
def payout_step (g : GState) (u : Nat) : GState := okD (payout_user u g) g

/-- A sequence of `payout_user` attempts (any users, any order, repeats
allowed). -/
def run_payouts (us : List Nat) (g : GState) : GState := us.foldl payout_step g

/-- The epoch's policy liability cap as computed at every payout (lib.rs
403-417): `exposure_snapshot × severity_bps / 10000`, reduced to
`epoch_cap_fp` under the EpochBounded policy. -/
def liability_cap_fp_of (g : GState) : Nat :=
  let base := g.epoch.total_stake_snapshot_fp * g.epoch.severity_bps / BPS_DENOM
  if g.state.payout_policy = 2 then min base g.epoch.epoch_cap_fp else base

/-- A user-flow operation, for sequences of instructions. -/
inductive Op
  | dep (u amount tranche : Nat) (referrer : Option Nat) (now : Int)
  | wd (u amount tranche : Nat) (now : Int)
  | pay (u : Nat)

/-- Apply one operation; a failed instruction commits nothing. -/
def op_step (g : GState) (o : Op) : GState :=
  match o with
  | .dep u a t r n => okD (deposit_insurance u a t r n g) g
  | .wd u a t n => okD (withdraw u a t n g) g
  | .pay u => payout_step g u

/-- Apply a sequence of operations. -/
def run_ops (os : List Op) (g : GState) : GState := os.foldl op_step g

/-! ### Concrete states used to evaluate the instructions on specific inputs -/

/-- A freshly set-up pool configuration: admin 7, no fees, no minimum, no
lockup, no cooldown, Proportional policy, both tranche weights 10000 bps. -/
def baseState : State :=
  { admin := 7, paused := false, processing := false, payout_policy := 0,
    user_deposit_cap_fp := 10 ^ 30, min_deposit_fp := 0,
    protocol_fee_bps := 0, referral_fee_bps := 0,
    lockup_secs := 0, min_seconds_between_deposits := 0,
    epoch_cap_fp := 0, rolling_mode := false, max_stale_secs := 0,
    sev_quad_a_fp := 0, sev_quad_b_fp := 0, sev_quad_c_fp := 0,
    severity_floor_bps := 0,
    tranche_weight_senior_bps := 10000, tranche_weight_junior_bps := 10000,
    last_event_ts := 0, total_deposited_fp := 0, carryover_shortfall_fp := 0 }

/-- A freshly started epoch (all counters zero, open-ended). -/
def baseEpoch : Epoch :=
  { epoch_id := 1, start_ts := 0, end_ts := 0, total_stake_snapshot_fp := 0,
    total_payout_fp := 0, shortfall_fp := 0, severity_bps := 0,
    user_cap_bps := 0, epoch_cap_fp := 0, triggered := false, closed := false,
    evidence_hash := 0, evidence_ts := 0 }

/-- An oracle allowlist as freshly allocated (disabled, empty). -/
def baseList : OracleList := ⟨false, 0, List.replicate 16 0⟩

/-- A fresh global state: empty positions and claims, empty vault, every user
holding 1000 token units. -/
def baseG : GState :=
  { state := baseState, epoch := baseEpoch, oracle_list := baseList,
    positions := fun _ => initPosition, claims := fun _ => initClaim,
    vaultAmount := 0, treasuryAmount := 0, userAmounts := fun _ => 1000 }

/-- Operation sequence exhibiting the conservation violation: users 1 and 2
each deposit 100, then user 1 withdraws 100 twice (the second withdrawal is
accepted because deposits credit the withdrawable balance immediately and the
matured lot credits it a second time). -/
def c3ops : List Op :=
  [.dep 1 100 0 none 0, .dep 2 100 0 none 0, .wd 1 100 0 0, .wd 1 100 0 0]

def c3final : GState := run_ops c3ops baseG

def c4final : GState := run_ops [.dep 1 100 0 none 0, .wd 1 100 0 0] baseG

/-- Fresh pool with a 86,400-second lockup. -/
def c5g : GState := { baseG with state := { baseState with lockup_secs := 86400 } }

/-- The state after user 1 deposits 1000 (net, no fees) at `t = 0`. -/
def c5dep : GState := okD (deposit_insurance 1 1000 0 none 0 c5g) c5g

/-- Fresh pool with a 50-bps protocol fee and no referral fee. -/
def c9g : GState := { baseG with state := { baseState with protocol_fee_bps := 50 } }

/-- The state after user 1 deposits 1000 whole units into the senior tranche. -/
def c9res : GState := okD (deposit_insurance 1 1000 0 none 0 c9g) c9g

/-- A state whose epoch is already triggered (with the allowlist still
disabled, as a fresh allowlist is). -/
def c8g : GState := { baseG with epoch := { baseEpoch with triggered := true } }

/-- A state whose epoch is already triggered and whose allowlist is enabled,
so that the admin (key 7) passes the authorization gate. -/
def c8wg : GState :=
  { baseG with
    epoch := { baseEpoch with triggered := true },
    oracle_list := ⟨true, 0, List.replicate 16 0⟩ }

/-- The tranche-weighted effective stake computed by `payout_user` for user
`u` (lib.rs 428-433, 1254-1258), as a pure value (defined whenever the
checked arithmetic does not overflow). -/
def weighted_stake_val (g : GState) (u : Nat) : Nat :=
  (g.positions u).senior_deposited_fp * g.state.tranche_weight_senior_bps / BPS_DENOM +
  (g.positions u).junior_deposited_fp * g.state.tranche_weight_junior_bps / BPS_DENOM

/-- `max_liability_fp` as computed by `payout_user` (lib.rs 414-420):
the policy liability cap further clamped to the current pool balance. -/
def max_liability_val (g : GState) : Nat :=
  min (liability_cap_fp_of g) (g.vaultAmount * SCALE)

/-- A state mid-claims: epoch triggered (pool paused), exposure snapshot
`100 × SCALE`, severity 500 bps, vault holding 100 units, user 1 holding the
whole stake in the senior tranche. -/
def c1g0 : GState :=
  { baseG with
    state := { baseState with paused := true },
    epoch := { baseEpoch with
               triggered := true, total_stake_snapshot_fp := 100 * SCALE,
               severity_bps := 500 },
    positions := updF (fun _ => initPosition) 1
      { initPosition with owner := 1, senior_deposited_fp := 100 * SCALE },
    vaultAmount := 100 }

/-- `c1g0` after user 1's successful payout. -/
def c1g1 : GState := okD (payout_user 1 c1g0) c1g0

/-- `c1g1` after the admin finalizes the epoch. -/
def c1g2 : GState := okD (finalize_epoch none c1g1) c1g1

/-- Same claims-window state as `c1g0` but with user 1's claim receipt
already holding a non-zero claimed amount. -/
def c1wg : GState :=
  { baseG with
    state := { baseState with paused := true },
    epoch := { baseEpoch with
               triggered := true, total_stake_snapshot_fp := 100 * SCALE,
               severity_bps := 500 },
    positions := updF (fun _ => initPosition) 1
      { initPosition with owner := 1, senior_deposited_fp := 100 * SCALE },
    claims := updF (fun _ => initClaim) 1 ⟨1, 1, 5 * SCALE⟩,
    vaultAmount := 100 }

/-- A triggered-epoch state for exercising payout sequences: snapshot
`100 × SCALE`, severity 500 bps, vault 100, user 1 holding the stake. -/
def c2g : GState :=
  { baseG with
    state := { baseState with paused := true },
    epoch := { baseEpoch with
               triggered := true, total_stake_snapshot_fp := 100 * SCALE,
               severity_bps := 500 },
    positions := updF (fun _ => initPosition) 1
      { initPosition with owner := 1, senior_deposited_fp := 100 * SCALE },
    vaultAmount := 100 }

/-- A triggered-epoch state on which user 1's payout succeeds. -/
def c10g : GState :=
  { baseG with
    state := { baseState with paused := true },
    epoch := { baseEpoch with
               triggered := true, total_stake_snapshot_fp := 100 * SCALE,
               severity_bps := 500 },
    positions := updF (fun _ => initPosition) 1
      { initPosition with owner := 1, senior_deposited_fp := 100 * SCALE },
    vaultAmount := 100 }

/-- The state after user 1's successful payout on `c10g`. -/
def c10res : GState := okD (payout_user 1 c10g) c10g

end TailRisk

namespace TailRisk

/-! ### Theorems -/

/-- Claim C3 (code_bug evidence): running deposits by users 1 and 2 and then a
double withdrawal by user 1 from a fresh pool leaves `total_deposited_fp = 0`
while the positions' deposited totals sum to `100 × SCALE`, so the pool total
does not equal the sum of the positions' deposited totals. -/
theorem conservation_violated_at_input :
    c3final.state.total_deposited_fp = 0 ∧
    ((c3final.positions 1).senior_deposited_fp + (c3final.positions 1).junior_deposited_fp)
      + ((c3final.positions 2).senior_deposited_fp + (c3final.positions 2).junior_deposited_fp)
      = 100 * SCALE ∧
    (0 : Nat) ≠ 100 * SCALE := by
  refine ⟨by decide, by decide, by decide⟩

/-- Claim C4 (code_bug evidence): after user 1 deposits 100 and withdraws 100
from a fresh zero-lockup pool, the position has
`senior_withdrawable_fp = 100 × SCALE` but `senior_deposited_fp = 0`, breaking
`withdrawable ≤ deposited` (the value is credited to the withdrawable balance
at deposit time and a second time when the lot matures). -/
theorem withdrawable_exceeds_deposited_at_input :
    (c4final.positions 1).senior_withdrawable_fp = 100 * SCALE ∧
    (c4final.positions 1).senior_deposited_fp = 0 ∧
    ¬ (100 * SCALE ≤ (0 : Nat)) := by
  refine ⟨by decide, by decide, by decide⟩

/-- Claim C5 (code_bug evidence): with `lockup_secs = 86400` and a single
deposit of 1000 at `t = 0`, the full-amount withdrawal already SUCCEEDS at
`t = 86399` (the claim says it must fail with the insufficient-matured-funds
error) — because `deposit_insurance` credits `senior_withdrawable_fp`
immediately, the lockup never gates withdrawal.  The `t = 86400` withdrawal
succeeds as well. -/
theorem early_withdraw_succeeds_at_input :
    okB (deposit_insurance 1 1000 0 none 0 c5g) = true ∧
    okB (withdraw 1 1000 0 86399 c5dep) = true ∧
    okB (withdraw 1 1000 0 86400 c5dep) = true := by
  refine ⟨by decide, by decide, by decide⟩

/-- Claim C9: a deposit of 1000 whole units with `protocol_fee_bps = 50` and
`referral_fee_bps = 0` credits a lot of exactly `995 × SCALE` fixed-point
units to the user's senior position and transfers exactly 5 whole units to
the protocol treasury (vault keeps 995). -/
theorem deposit_fee_example :
    okB (deposit_insurance 1 1000 0 none 0 c9g) = true ∧
    (c9res.positions 1).senior_deposited_fp = 995 * SCALE ∧
    (c9res.positions 1).senior_lots.buf.getD 0 ⟨0, 0⟩ = ⟨995 * SCALE, 0⟩ ∧
    (c9res.positions 1).senior_lots.len = 1 ∧
    c9res.treasuryAmount = 5 ∧
    c9res.vaultAmount = 995 := by
  refine ⟨by decide, by decide, by decide, by decide, by decide, by decide⟩

/-- `mul_div_floor_u128` succeeds (with value `a * b / d`) whenever the
product is in range and the denominator is nonzero. -/
theorem mul_div_floor_eq_ok {a b d : Nat} (h1 : a * b ≤ U128MAX) (h2 : d ≠ 0) :
    mul_div_floor_u128 a b d = .ok (a * b / d) := by
  unfold mul_div_floor_u128
  rw [if_pos h1, if_neg h2]

/-- `vault_balance_fp` succeeds whenever the scaled balance is in range. -/
theorem vault_balance_eq_ok {n : Nat} (h : n * SCALE ≤ U128MAX) :
    vault_balance_fp n = .ok (n * SCALE) := by
  unfold vault_balance_fp
  rw [if_pos h]

/-- `weighted_stake_fp` succeeds (with the floor-divided weighted sum)
whenever the two products and the sum are in range. -/
theorem weighted_stake_eq_ok {s j ws wj : Nat} (h1 : s * ws ≤ U128MAX)
    (h2 : j * wj ≤ U128MAX) (h3 : s * ws / BPS_DENOM + j * wj / BPS_DENOM ≤ U128MAX) :
    weighted_stake_fp s j ws wj = .ok (s * ws / BPS_DENOM + j * wj / BPS_DENOM) := by
  unfold weighted_stake_fp
  rw [mul_div_floor_eq_ok h1 (by decide), mul_div_floor_eq_ok h2 (by decide)]
  exact if_pos h3

/-- On success, `mul_div_floor_u128` returns exactly `a * b / denom`, and the
product was within the `u128` range with a nonzero denominator. -/
theorem mul_div_floor_ok {a b d v : Nat} (h : mul_div_floor_u128 a b d = .ok v) :
    a * b ≤ U128MAX ∧ d ≠ 0 ∧ v = a * b / d := by
  unfold mul_div_floor_u128 at h
  split at h
  · split at h
    · exact nomatch h
    · injection h with h
      exact ⟨by assumption, by assumption, h.symm⟩
  · exact nomatch h

/-- `mul_div_floor_u128` only ever fails with `MathOverflow`. -/
theorem mul_div_floor_err {a b d : Nat} {e : ErrorCode}
    (h : mul_div_floor_u128 a b d = .error e) : e = .MathOverflow := by
  unfold mul_div_floor_u128 at h
  split at h
  · split at h
    · injection h with h; exact h.symm
    · exact nomatch h
  · injection h with h; exact h.symm

/-- `effective_severity_bps` only ever fails with `MathOverflow`. -/
theorem effective_severity_err {x a b c f : Nat} {e : ErrorCode}
    (h : effective_severity_bps x a b c f = .error e) : e = .MathOverflow := by
  unfold effective_severity_bps at h
  split at h
  · split at h
    · next heq => injection h with h; exact h ▸ mul_div_floor_err heq
    · split at h
      · next heq => injection h with h; exact h ▸ mul_div_floor_err heq
      · split at h
        · next heq => injection h with h; exact h ▸ mul_div_floor_err heq
        · split at h
          · split at h
            · exact nomatch h
            · injection h with h; exact h.symm
          · injection h with h; exact h.symm
  · injection h with h; exact h.symm

/-- On success, `effective_severity_bps x a b c f` equals the clamped
quadratic `min (max ((a·x² + b·x + c) / SCALE) f) BPS_DENOM`, and every
intermediate `checked_mul`/`checked_add` stayed within the `u128` range. -/
theorem effective_severity_ok {x a b c f v : Nat}
    (h : effective_severity_bps x a b c f = .ok v) :
    v = min (max ((a * (x * x) + b * x + c) / SCALE) f) BPS_DENOM ∧
    a * (x * x * SCALE) ≤ U128MAX ∧ b * (x * SCALE) ≤ U128MAX ∧
    (x * SCALE) * (x * SCALE) ≤ U128MAX ∧ x * SCALE ≤ U128MAX ∧
    a * (x * x) + b * x + c ≤ U128MAX := by
  unfold effective_severity_bps at h
  split at h
  case isFalse => exact nomatch h
  case isTrue hxS =>
  split at h
  case h_1 => exact nomatch h
  case h_2 x2 hx2 =>
  split at h
  case h_1 => exact nomatch h
  case h_2 ax2 hax2 =>
  split at h
  case h_1 => exact nomatch h
  case h_2 bx hbx =>
  obtain ⟨hx2b, -, hx2v⟩ := mul_div_floor_ok hx2
  obtain ⟨haxb, -, haxv⟩ := mul_div_floor_ok hax2
  obtain ⟨hbxb, -, hbxv⟩ := mul_div_floor_ok hbx
  have ex2 : x2 = x * x * SCALE := by
    rw [hx2v]
    have : x * SCALE * (x * SCALE) = x * x * SCALE * SCALE := by ring
    rw [this, Nat.mul_div_cancel _ (by decide : 0 < SCALE)]
  have eax : ax2 = a * (x * x) := by
    rw [haxv, ex2]
    have : a * (x * x * SCALE) = a * (x * x) * SCALE := by ring
    rw [this, Nat.mul_div_cancel _ (by decide : 0 < SCALE)]
  have ebx : bx = b * x := by
    rw [hbxv]
    have : b * (x * SCALE) = b * x * SCALE := by ring
    rw [this, Nat.mul_div_cancel _ (by decide : 0 < SCALE)]
  split at h
  case isFalse => exact nomatch h
  case isTrue hsum1 =>
  split at h
  case isFalse => exact nomatch h
  case isTrue hsum2 =>
  injection h with h
  subst ex2
  refine ⟨?_, ?_, ?_, hx2b, hxS, ?_⟩
  · rw [← h, eax, ebx]
  · exact haxb
  · exact hbxb
  · rw [← eax, ← ebx]; exact hsum2

/-- Claim C6 (amended): for any coefficients `a, b, c` (all non-negative, as
`u128` values are) and any floor, `effective_severity_bps` is non-decreasing
in its input on the inputs where it succeeds; and provided
`floor_bps ≤ 10000`, every successful result lies in `[floor_bps, 10000]`.
(The range claim fails as stated when `floor_bps > 10000`; see the
counterexample.) -/
theorem severity_monotone_and_range (a b c f x1 x2 v1 v2 : Nat)
    (hx : x1 ≤ x2)
    (h1 : effective_severity_bps x1 a b c f = .ok v1)
    (h2 : effective_severity_bps x2 a b c f = .ok v2)
    (hf : f ≤ BPS_DENOM) :
    v1 ≤ v2 ∧ f ≤ v1 ∧ v1 ≤ BPS_DENOM ∧ f ≤ v2 ∧ v2 ≤ BPS_DENOM := by
  obtain ⟨e1, -⟩ := effective_severity_ok h1
  obtain ⟨e2, -⟩ := effective_severity_ok h2
  subst e1; subst e2
  have hpoly : a * (x1 * x1) + b * x1 + c ≤ a * (x2 * x2) + b * x2 + c :=
    Nat.add_le_add_right
      (Nat.add_le_add (Nat.mul_le_mul_left a (Nat.mul_le_mul hx hx))
        (Nat.mul_le_mul_left b hx)) c
  refine ⟨?_, ?_, min_le_right _ _, ?_, min_le_right _ _⟩
  · exact min_le_min (max_le_max (Nat.div_le_div_right hpoly) le_rfl) le_rfl
  · exact le_min (le_max_right _ _) hf
  · exact le_min (le_max_right _ _) hf

/-- Claim C6 (witness): the monotonicity/range theorem applied at the concrete
curve `a = 0`, `b = SCALE` (slope one), `c = 0`, `floor = 0`, inputs 3 and 5,
where the evaluator returns 3 and 5. -/
theorem severity_monotone_witness :
    effective_severity_bps 3 0 SCALE 0 0 = .ok 3 ∧
    effective_severity_bps 5 0 SCALE 0 0 = .ok 5 ∧
    (3 ≤ 5 ∧ 0 ≤ 3 ∧ 3 ≤ BPS_DENOM ∧ 0 ≤ 5 ∧ 5 ≤ BPS_DENOM) := by
  refine ⟨rfl, rfl, ?_⟩
  have h := severity_monotone_and_range 0 SCALE 0 0 3 5 3 5 (by decide)
    rfl rfl (by decide)
  exact ⟨by decide, by decide, h.2.2.1, by decide, h.2.2.2.2⟩

/-- Claim C6 (counterexample): with `floor_bps = 10001` (the admin setters
never bound `severity_floor_bps`), the evaluator returns 10000 on input 0,
which does not lie in `[floor_bps, 10000]` — the result is below the floor. -/
theorem severity_floor_counterexample :
    effective_severity_bps 0 0 0 0 10001 = .ok 10000 ∧ ¬ (10001 ≤ (10000 : Nat)) := by
  exact ⟨rfl, by decide⟩

/-- Claim C7 (counterexample): on a state whose oracle allowlist is disabled,
`trigger_event` signed by the administrator (signer 7 = admin) fails with
`Unauthorized` — the administrator is NOT authorized when the allowlist is
disabled, contradicting the claim's "regardless of whether the allowlist is
enabled". -/
theorem admin_rejected_when_list_disabled :
    baseG.oracle_list.enabled = false ∧
    baseG.state.admin = 7 ∧
    trigger_event 7 0 none none none none 0 baseG = .error (.code .Unauthorized) := by
  exact ⟨rfl, rfl, rfl⟩

/-- Claim C7 (amended): `trigger_event`'s authorization gate accepts a signer
exactly when the allowlist is enabled AND (the signer equals the pool
administrator OR the signer appears among the first `count` keys of the
allowlist).  When that condition fails the call errors with `Unauthorized`;
when it holds the call never errors with `Unauthorized`.  In particular the
administrator is NOT authorized while the allowlist is disabled (see the
counterexample). -/
theorem trigger_event_auth_characterization (g : GState) (signer si : Nat)
    (uc eo eh : Option Nat) (ets : Option Int) (now : Int) :
    (trigger_auth g signer = false →
      trigger_event signer si uc eo eh ets now g = .error (.code .Unauthorized)) ∧
    (trigger_auth g signer = true →
      trigger_event signer si uc eo eh ets now g ≠ .error (.code .Unauthorized)) := by
  constructor
  · intro hfalse
    simp only [trigger_auth, Bool.and_eq_false_iff, Bool.or_eq_false_iff,
      beq_eq_false_iff_ne] at hfalse
    unfold trigger_event
    rcases hfalse with he | ⟨hadm, hall⟩
    · rw [if_pos (by simp [he])]
    · rcases Decidable.em (g.oracle_list.enabled = true) with hen | hen
      · rw [if_neg (not_not_intro hen), if_pos ⟨hadm, by simp [hall]⟩]
      · rw [if_pos hen]
  · intro htrue
    simp only [trigger_auth, Bool.and_eq_true, Bool.or_eq_true, beq_iff_eq] at htrue
    obtain ⟨hen, hadm⟩ := htrue
    unfold trigger_event
    rw [if_neg (not_not_intro hen)]
    rw [if_neg (by rcases hadm with h | h <;> simp [h])]
    split
    · simp
    · split
      · simp
      · split
        · simp
        · split
          · simp
          · split
            · next e heq => simp [effective_severity_err heq]
            · simp

/-- Claim C7 (witness): the characterization applied to a fresh state whose
allowlist is disabled, signer 8: the gate reports false and the call errors
with `Unauthorized`. -/
theorem trigger_auth_witness :
    trigger_auth baseG 8 = false ∧
    trigger_event 8 0 none none none none 0 baseG = .error (.code .Unauthorized) :=
  ⟨by decide, (trigger_event_auth_characterization baseG 8 0 none none none none 0).1 (by decide)⟩

/-- Claim C8 (amended): on an epoch whose `triggered` flag is already set,
every `trigger_event` call fails (so an epoch is triggered at most once, and
under the transactional error semantics the state is unchanged); when the
caller passes the authorization gate, the error is precisely
`EpochAlreadyTriggered` (an unauthorized caller gets `Unauthorized` instead —
see the counterexample). -/
theorem trigger_event_on_triggered_epoch (g : GState) (signer si : Nat)
    (uc eo eh : Option Nat) (ets : Option Int) (now : Int)
    (h : g.epoch.triggered = true) :
    (∀ g', trigger_event signer si uc eo eh ets now g ≠ .ok g') ∧
    (trigger_auth g signer = true →
      trigger_event signer si uc eo eh ets now g = .error (.code .EpochAlreadyTriggered)) := by
  constructor
  · intro g'
    unfold trigger_event
    rcases Decidable.em (¬ g.oracle_list.enabled = true) with he | he
    · rw [if_pos he]; simp
    · rw [if_neg he]
      rcases Decidable.em (signer ≠ g.state.admin ∧ ¬ oracle_is_allowed g.oracle_list signer = true)
        with ha | ha
      · rw [if_pos ha]; simp
      · rw [if_neg ha]; simp [h]
  · intro htrue
    simp only [trigger_auth, Bool.and_eq_true, Bool.or_eq_true, beq_iff_eq] at htrue
    obtain ⟨hen, hadm⟩ := htrue
    unfold trigger_event
    rw [if_neg (not_not_intro hen)]
    rw [if_neg (by rcases hadm with h' | h' <;> simp [h'])]
    simp [h]

/-- Claim C8 (witness): on a triggered epoch with the allowlist enabled and
the admin signing, `trigger_event` fails with exactly `EpochAlreadyTriggered`. -/
theorem trigger_event_on_triggered_epoch_witness :
    c8wg.epoch.triggered = true ∧
    trigger_event 7 0 none none none none 0 c8wg = .error (.code .EpochAlreadyTriggered) :=
  ⟨rfl, (trigger_event_on_triggered_epoch c8wg 7 0 none none none none 0 rfl).2 (by decide)⟩

/-- Claim C8 (counterexample): on an already-triggered epoch whose allowlist
is disabled, `trigger_event` fails with `Unauthorized`, not
`EpochAlreadyTriggered` — the authorization gate runs before the triggered
check, so not every call on a triggered epoch fails with
`EpochAlreadyTriggered`. -/
theorem triggered_epoch_rejects_with_unauthorized :
    c8g.epoch.triggered = true ∧
    trigger_event 7 0 none none none none 0 c8g = .error (.code .Unauthorized) ∧
    PErr.code .Unauthorized ≠ PErr.code .EpochAlreadyTriggered := by
  exact ⟨rfl, rfl, by decide⟩

set_option maxHeartbeats 4000000 in
/-- Inversion of a successful `payout_user` call: every guard on the success
path held (reentrancy clear, epoch triggered and open, receipt at its zero
sentinel), the paid amount is positive and bounded by the remaining room
under `min(liability cap, current pool balance)`, and the resulting state is
the input state with exactly the epoch accumulator/shortfall, the caller's
claim receipt, and the vault/user token balances updated. -/
theorem payout_user_ok_inv {u : Nat} {g g' : GState}
    (h : payout_user u g = .ok g') :
    ∃ pay pay64 sf,
      g.state.processing = false ∧
      g.epoch.triggered = true ∧
      g.epoch.closed = false ∧
      (g.claims u).claimed_fp = 0 ∧
      0 < pay ∧
      pay ≤ min (liability_cap_fp_of g) (g.vaultAmount * SCALE) - g.epoch.total_payout_fp ∧
      pay64 ≤ g.vaultAmount ∧
      g' = { g with
             epoch := { g.epoch with
                        shortfall_fp := sf,
                        total_payout_fp := satAdd128 g.epoch.total_payout_fp pay },
             claims := updF g.claims u
               { epoch_id := g.epoch.epoch_id, owner := u, claimed_fp := pay },
             vaultAmount := g.vaultAmount - pay64,
             userAmounts := updF g.userAmounts u (g.userAmounts u + pay64) } := by
  simp only [payout_user] at h
  repeat' split at h
  all_goals try exact Except.noConfusion h
  all_goals injection h with h
  all_goals
    rename_i hproc htc xa pbal hbal xb base hbase hpol hml hown xc eff heff hez
      xd share hshare xe finalp hfinal hclaim hpay xf pay64 hp64 htr hsf
  all_goals
    obtain ⟨ht, hcl⟩ : g.epoch.triggered = true ∧ g.epoch.closed = false := by simpa using htc
  all_goals
    have hbalV : pbal = g.vaultAmount * SCALE := by
      unfold vault_balance_fp at hbal
      split at hbal
      · injection hbal with hbal; exact hbal.symm
      · exact Except.noConfusion hbal
  all_goals
    obtain ⟨-, -, hbaseV⟩ := mul_div_floor_ok hbase
  all_goals subst hbalV
  all_goals subst hbaseV
  all_goals
    refine ⟨_, pay64, _, by simpa using hproc, ht, hcl,
      by simpa using hclaim, Nat.pos_of_ne_zero hpay, ?_, Nat.le_of_not_lt htr, h.symm⟩
  all_goals simp only [liability_cap_fp_of]
  all_goals first
    | (rw [if_pos hpol]; exact min_le_right _ _)
    | (rw [if_neg hpol]; exact min_le_right _ _)

/-- Claim C2: starting from any state whose epoch accumulator is zero (as it
is at trigger time), after ANY sequence of `payout_user` attempts — any
claimants, any order, repeats and failures included — the epoch's
`total_payout_fp` never exceeds `min(liability cap, pool liquidity at the
start of the sequence)`, where the liability cap is
`exposure_snapshot × severity_bps / 10000`, reduced to `epoch_cap_fp` under
the EpochBounded policy.  (Only `payout_user` can run against the pool during
the claims window — the pool is paused from trigger to finalize — and each
payout is clamped to the remaining room, so the bound holds under every
ordering of claimants.) -/
theorem payout_total_bounded (us : List Nat) (g : GState)
    (h0 : g.epoch.total_payout_fp = 0) :
    (run_payouts us g).epoch.total_payout_fp ≤
      min (liability_cap_fp_of g) (g.vaultAmount * SCALE) := by
  suffices main : ∀ (vs : List Nat) (g2 : GState),
      liability_cap_fp_of g2 = liability_cap_fp_of g →
      g2.vaultAmount ≤ g.vaultAmount →
      g2.epoch.total_payout_fp ≤ min (liability_cap_fp_of g) (g.vaultAmount * SCALE) →
      (run_payouts vs g2).epoch.total_payout_fp ≤
        min (liability_cap_fp_of g) (g.vaultAmount * SCALE) by
    exact main us g rfl le_rfl (h0 ▸ Nat.zero_le _)
  intro vs
  induction vs with
  | nil =>
    intro g2 _ _ ht
    simpa [run_payouts] using ht
  | cons v rest ih =>
    intro g2 hcap hv ht
    show (run_payouts rest (payout_step g2 v)).epoch.total_payout_fp ≤ _
    rcases hres : payout_user v g2 with e | g3
    · have hid : payout_step g2 v = g2 := by simp [payout_step, okD, hres]
      rw [hid]
      exact ih g2 hcap hv ht
    · have hps : payout_step g2 v = g3 := by simp [payout_step, okD, hres]
      rw [hps]
      obtain ⟨pay, pay64, sf, -, -, -, -, hpos, hbound, hp64, hg3⟩ := payout_user_ok_inv hres
      subst hg3
      refine ih _ ?_ ?_ ?_
      · exact hcap
      · exact le_trans (Nat.sub_le _ _) hv
      · show satAdd128 g2.epoch.total_payout_fp pay ≤ _
        have h1 : satAdd128 g2.epoch.total_payout_fp pay ≤ g2.epoch.total_payout_fp + pay :=
          min_le_left _ _
        have h2 : g2.epoch.total_payout_fp + pay ≤
            min (liability_cap_fp_of g2) (g2.vaultAmount * SCALE) := by omega
        have h3 : min (liability_cap_fp_of g2) (g2.vaultAmount * SCALE) ≤
            min (liability_cap_fp_of g) (g.vaultAmount * SCALE) := by
          rw [hcap]
          exact min_le_min le_rfl (Nat.mul_le_mul_right _ hv)
        omega

/-- Claim C2 (witness): the bound applied to a concrete triggered state
(snapshot `100 × SCALE`, severity 500 bps, vault 100) and the attempt
sequence `[1, 1, 2]`. -/
theorem payout_total_bounded_witness :
    c2g.epoch.total_payout_fp = 0 ∧
    (run_payouts [1, 1, 2] c2g).epoch.total_payout_fp ≤
      min (liability_cap_fp_of c2g) (c2g.vaultAmount * SCALE) :=
  ⟨rfl, payout_total_bounded [1, 1, 2] c2g rfl⟩

/-- Claim C10: a successful `payout_user` leaves the whole pool `State`
unchanged (in particular `total_deposited_fp` and the `processing` guard,
which is restored before return), leaves every user position — deposited and
withdrawable totals and lot queues — unchanged, leaves the treasury and the
oracle list unchanged, changes on the epoch only `total_payout_fp` and
`shortfall_fp`, and changes no claim receipt other than the caller's. -/
theorem payout_user_frame (u : Nat) (g g' : GState)
    (h : payout_user u g = .ok g') :
    g'.state = g.state ∧
    g'.positions = g.positions ∧
    g'.state.total_deposited_fp = g.state.total_deposited_fp ∧
    g'.state.processing = g.state.processing ∧
    g'.treasuryAmount = g.treasuryAmount ∧
    g'.oracle_list = g.oracle_list ∧
    g'.epoch.epoch_id = g.epoch.epoch_id ∧
    g'.epoch.start_ts = g.epoch.start_ts ∧
    g'.epoch.end_ts = g.epoch.end_ts ∧
    g'.epoch.total_stake_snapshot_fp = g.epoch.total_stake_snapshot_fp ∧
    g'.epoch.severity_bps = g.epoch.severity_bps ∧
    g'.epoch.user_cap_bps = g.epoch.user_cap_bps ∧
    g'.epoch.epoch_cap_fp = g.epoch.epoch_cap_fp ∧
    g'.epoch.triggered = g.epoch.triggered ∧
    g'.epoch.closed = g.epoch.closed ∧
    g'.epoch.evidence_hash = g.epoch.evidence_hash ∧
    g'.epoch.evidence_ts = g.epoch.evidence_ts ∧
    (∀ v, v ≠ u → g'.claims v = g.claims v) := by
  obtain ⟨pay, pay64, sf, -, -, -, -, -, -, -, hg⟩ := payout_user_ok_inv h
  subst hg
  refine ⟨rfl, rfl, rfl, rfl, rfl, rfl, rfl, rfl, rfl, rfl, rfl, rfl, rfl, rfl, rfl,
    rfl, rfl, ?_⟩
  intro v hv
  simp [updF, hv]

/-- Claim C1 (counterexample): user 1's payout on `c1g0` succeeds and writes
a non-zero `claimed_fp` (5 × SCALE); after the admin finalizes the epoch, the
subsequent `payout_user` call for the same (user, epoch) pair fails with
`EpochNotActive`, not `NothingToPayout` — so not every subsequent call fails
with the `NothingToPayout` error. -/
theorem second_payout_error_after_finalize :
    okB (payout_user 1 c1g0) = true ∧
    (c1g1.claims 1).claimed_fp = 5 * SCALE ∧
    okB (finalize_epoch none c1g1) = true ∧
    payout_user 1 c1g2 = .error (.code .EpochNotActive) ∧
    PErr.code .EpochNotActive ≠ PErr.code .NothingToPayout := by
  exact ⟨by decide, by decide, by decide, rfl, by decide⟩

/-- Claim C1 (amended): once the claim receipt of a (user, epoch) pair holds
a non-zero `claimed_fp`, no later `payout_user` call for that pair can ever
succeed (so at most one payout succeeds per pair, no value is transferred and
`total_payout_fp` is unchanged — a failing call commits nothing); and the
failure is specifically `NothingToPayout` whenever the epoch is still
triggered and not closed, the processing guard is clear, the caller owns the
position, and none of the checked multiplications overflow (otherwise the
error can be e.g. `EpochNotActive`, as after finalization). -/
theorem payout_after_nonzero_claim (g : GState) (u : Nat)
    (hc : (g.claims u).claimed_fp ≠ 0) :
    (∀ g', payout_user u g ≠ .ok g') ∧
    (g.state.processing = false →
     g.epoch.triggered = true →
     g.epoch.closed = false →
     (g.positions u).owner = u →
     g.vaultAmount * SCALE ≤ U128MAX →
     g.epoch.total_stake_snapshot_fp * g.epoch.severity_bps ≤ U128MAX →
     (g.positions u).senior_deposited_fp * g.state.tranche_weight_senior_bps ≤ U128MAX →
     (g.positions u).junior_deposited_fp * g.state.tranche_weight_junior_bps ≤ U128MAX →
     weighted_stake_val g u ≤ U128MAX →
     max_liability_val g * weighted_stake_val g u ≤ U128MAX →
     weighted_stake_val g u * g.epoch.user_cap_bps ≤ U128MAX →
     payout_user u g = .error (.code .NothingToPayout)) := by
  constructor
  · intro g' hok
    obtain ⟨pay, pay64, sf, -, -, -, hz, -⟩ := payout_user_ok_inv hok
    exact hc hz
  · intro hproc ht hcl hown hvS hbaseB hswB hjwB hsumB hshareB hcapB
    have hvb := vault_balance_eq_ok hvS
    have hbase := mul_div_floor_eq_ok hbaseB (by decide : BPS_DENOM ≠ 0)
    simp only [weighted_stake_val] at hswB hjwB hsumB hshareB hcapB
    have hws := weighted_stake_eq_ok hswB hjwB hsumB
    simp only [max_liability_val, liability_cap_fp_of] at hshareB
    by_cases hml :
        min (if g.state.payout_policy = 2 then
               min (g.epoch.total_stake_snapshot_fp * g.epoch.severity_bps / BPS_DENOM)
                 g.epoch.epoch_cap_fp
             else g.epoch.total_stake_snapshot_fp * g.epoch.severity_bps / BPS_DENOM)
          (g.vaultAmount * SCALE) = 0
    · simp [payout_user, hvb, hbase, hproc, ht, hcl, hml]
    · by_cases hez :
          (g.positions u).senior_deposited_fp * g.state.tranche_weight_senior_bps / BPS_DENOM +
            (g.positions u).junior_deposited_fp * g.state.tranche_weight_junior_bps / BPS_DENOM = 0 ∨
          g.epoch.total_stake_snapshot_fp = 0
      · simp only [payout_user, hvb, hbase, hws, hproc, ht, hcl]
        simp [payout_user, hvb, hbase, hws, hproc, ht, hcl, hml, hown]
        intro hA hB
        rcases hez with hz | hz
        · exact absurd (Nat.eq_zero_of_add_eq_zero_left hz)
            (hA (Nat.eq_zero_of_add_eq_zero_right hz))
        · exact absurd hz hB
      · have hsnap : g.epoch.total_stake_snapshot_fp ≠ 0 := fun hs => hez (Or.inr hs)
        by_cases hcap : g.state.payout_policy = 1 ∧ 0 < g.epoch.user_cap_bps
        · obtain ⟨hpol1, hucap⟩ := hcap
          rw [hpol1] at hshareB
          simp at hshareB
          have hshare := mul_div_floor_eq_ok hshareB hsnap
          have hcapok := mul_div_floor_eq_ok hcapB (by decide : BPS_DENOM ≠ 0)
          simp [payout_user, hvb, hbase, hws, hproc, ht, hcl, hml, hez, hown, hshare,
            hpol1, hucap, hcapok, hc]
        · have hshare := mul_div_floor_eq_ok hshareB hsnap
          simp [payout_user, hvb, hbase, hws, hproc, ht, hcl, hml, hez, hown, hshare,
            hcap, hc]

/-- Claim C1 (witness): the amended theorem applied to `c1wg`, a claims-window
state whose receipt for user 1 already holds `5 × SCALE`: the repeated call
fails with exactly `NothingToPayout`. -/
theorem payout_after_nonzero_claim_witness :
    (c1wg.claims 1).claimed_fp ≠ 0 ∧
    payout_user 1 c1wg = .error (.code .NothingToPayout) :=
  ⟨by decide,
   (payout_after_nonzero_claim c1wg 1 (by decide)).2 rfl rfl rfl rfl (by decide)
     (by decide) (by decide) (by decide) (by decide) (by decide) (by decide)⟩

/-- Claim C10 (witness): the frame theorem applied to a concrete successful
payout (user 1 on `c10g`). -/
theorem payout_user_frame_witness :
    payout_user 1 c10g = .ok c10res ∧
    c10res.state = c10g.state ∧
    c10res.positions = c10g.positions ∧
    c10res.claims 2 = c10g.claims 2 := by
  have h : payout_user 1 c10g = .ok c10res := rfl
  have hf := payout_user_frame 1 c10g c10res h
  exact ⟨h, hf.1, hf.2.1, hf.2.2.2.2.2.2.2.2.2.2.2.2.2.2.2.2.2 2 (by decide)⟩

end TailRisk
